import Mathlib

/-!
Verification of the BookMaster track-processing and master-assembly pipeline.

This file gives a shallow embedding, in Lean, of the pieces of the source
that the specification's claims are about:

* natural sorting (the `natsort` library's default key: digit runs compared
  numerically, other runs compared as codepoint strings),
* the structure checksum (`utils/file_helpers.py:compute_sha256`),
* master-structure creation (`models/master.py:Master.create_master_structure`),
* the master validator (`utils/master_validator.py:MasterValidator`),
* track validity (`models/track.py:Track.status` and friends),
* track-collection aggregates (`models/tracks.py:Tracks`),
* capacity planning (`models/masterdraft.py:MasterDraft.calculate_encoding_for_drive_limit`
  and `models/master.py:Master.calculate_encoding_for_1gb`),
* disk-image sizing (`models/diskimage.py:DiskImage.create_disk_image`).

Modelling conventions:

* Python floats are modelled as exact rationals (`ℚ`); the claims under
  study never depend on IEEE rounding.
* Fallible Python code (raised exceptions) is modelled with `Except PyErr`.
* SHA-256 is modelled by the exact byte stream fed to the hasher: the
  model "digest" of a file list is the concatenation, in hash order, of
  each hashed file's relative path and content.  Two model digests are
  equal exactly when the hashed streams are equal, which is the intended
  reading of digest equality under the standard collision-freeness
  idealisation of SHA-256.
* A filesystem tree is a list of `(relative path, content)` pairs for its
  files (all paths relative to the tree root, POSIX separators), together
  with — where the code queries them — an explicit list of directories.
-/

/-- Errors raised by the modelled Python code. -/
inductive PyErr where
  /-- Python `AttributeError` (attribute lookup on an object failed). -/
  | attributeError : PyErr
  /-- Python `TypeError` (e.g. comparing `None` with an `int`). -/
  | typeError : PyErr
  /-- Python `ValueError` (raised explicitly by the source). -/
  | valueError : PyErr
deriving DecidableEq, Repr

/-! ## Natural sort

`natsort.natsorted` with its default key splits a string into alternating
runs of non-digit characters and runs of ASCII digits, starting with a
(possibly empty) non-digit run; digit runs are compared as the numbers they
denote, non-digit runs as codepoint strings, and the resulting key tuples
are compared lexicographically.  Because every key alternates
string, number, string, number, … starting with a string, two keys always
meet the same constructor at the same position. -/

/-- One chunk of a natural-sort key: a run of non-digit characters (left) or
the numeric value of a run of digits (right).  `Sum.Lex` ordering is used;
its cross-constructor case is unreachable because keys alternate starting
with a (possibly empty) string chunk. -/
abbrev NatChunk := List Char ⊕ₗ ℕ

/-- Natural-sort key of a character list: alternating non-digit runs and
digit-run values, beginning with a (possibly empty) non-digit run. -/
def natKeyAux : List Char → List Char → List NatChunk
  | [], sAcc => [Sum.inlₗ sAcc.reverse]
  | c :: cs, sAcc =>
    if c.isDigit then Sum.inlₗ sAcc.reverse :: natKeyNum cs (c.toNat - 48)
    else natKeyAux cs (c :: sAcc)
where
  /-- Continuation of `natKeyAux` inside a digit run with accumulated value `n`. -/
  natKeyNum : List Char → ℕ → List NatChunk
    | [], n => [Sum.inrₗ n]
    | c :: cs, n =>
      if c.isDigit then natKeyNum cs (n * 10 + (c.toNat - 48))
      else Sum.inrₗ n :: natKeyAux cs [c]

/-- Natural-sort key of a string. -/
def natKey (s : String) : List NatChunk := natKeyAux s.toList []

/-- The natural-sort ordering on strings: lexicographic comparison of keys. -/
def NatLe (a b : String) : Prop := natKey a ≤ natKey b

instance : DecidableRel NatLe := fun a b => by
  unfold NatLe; infer_instance

/-- Model of `natsort.natsorted(xs, key=...)`: a stable sort by the natural
order of a string projection (the library uses Python's stable `sorted`;
`List.insertionSort` is likewise stable). -/
def natsortBy (key : α → String) (l : List α) : List α :=
  l.insertionSort (fun x y => NatLe (key x) (key y))

theorem natsortBy_perm (key : α → String) (l : List α) :
    (natsortBy key l).Perm l :=
  List.perm_insertionSort _ l

theorem natsortBy_sorted (key : α → String) (l : List α) :
    (natsortBy key l).Sorted (fun x y => NatLe (key x) (key y)) := by
  haveI : IsTotal α (fun x y => NatLe (key x) (key y)) :=
    ⟨fun a b => le_total (natKey (key a)) (natKey (key b))⟩
  haveI : IsTrans α (fun x y => NatLe (key x) (key y)) :=
    ⟨fun _ _ _ h h2 => le_trans h h2⟩
  exact List.sorted_insertionSort _ l

/-! ## String utilities

Character-list implementations of the Python string operations the source
uses (`str.split`, `str.lower`, `str.upper`, `str.strip`,
`str.startswith`, `str.endswith`, decimal parsing), kept
kernel-computable so that concrete claims evaluate by `decide`. -/

/-- Split a character list on a separator character; `n` separators yield
`n + 1` (possibly empty) pieces, like Python `str.split(sep)`. -/
def charsSplitOn (sep : Char) : List Char → List (List Char)
  | [] => [[]]
  | c :: cs =>
    let r := charsSplitOn sep cs
    if c = sep then [] :: r else (c :: r.headD []) :: r.tail

/-- Split a string on a separator character. -/
def strSplitOn (sep : Char) (s : String) : List String :=
  (charsSplitOn sep s.toList).map String.mk

/-- Python `str.lower` (ASCII). -/
def strLower (s : String) : String := String.mk (s.toList.map Char.toLower)

/-- Python `str.upper` (ASCII). -/
def strUpper (s : String) : String := String.mk (s.toList.map Char.toUpper)

/-- Python `str.startswith`. -/
def strStartsWith (s t : String) : Bool := s.toList.take t.toList.length = t.toList

/-- Python `str.endswith`. -/
def strEndsWith (s t : String) : Bool := t.toList.isSuffixOf s.toList

/-- An ASCII whitespace character as stripped by Python `str.strip()`. -/
def isPySpace (c : Char) : Bool := c = ' ' ∨ c = '\t' ∨ c = '\n' ∨ c = '\r'

/-- Python `str.strip()`: remove leading and trailing whitespace. -/
def strTrim (s : String) : String :=
  String.mk ((s.toList.dropWhile isPySpace).reverse.dropWhile isPySpace).reverse

/-- Numeric value of a list of decimal digits. -/
def decDigitsToNat (cs : List Char) : ℕ :=
  cs.foldl (fun n c => n * 10 + (c.toNat - 48)) 0

/-- Python `int(s)` restricted to the unsigned decimal strings the wire
format prescribes for `count.txt`: strip whitespace, then require at least
one digit and nothing else. -/
def parseDecimal (s : String) : Option ℕ :=
  let cs := (strTrim s).toList
  if cs ≠ [] ∧ cs.all Char.isDigit then some (decDigitsToNat cs) else none

/-! ## Filesystem trees and the structure checksum

A filesystem tree is the list of its files as `(relative path, content)`
pairs.  `utils/file_helpers.py:compute_sha256` natural-sorts the paths,
skips files having a path component among `EXCLUDED_DIRS`, and feeds each
remaining file's relative path (UTF-8) followed by its content bytes to a
single SHA-256 hasher.  The code sorts full path strings; since every
hashed file lies under one common root and `/` bounds each digit run at
the root boundary, that order coincides with natural order of the
relative paths used here. -/

/-- One file of a tree: path relative to the tree root (POSIX separators)
and its content bytes. -/
structure FSFile where
  path : String
  content : String
deriving DecidableEq, Repr

/-- `EXCLUDED_DIRS` of `utils/file_helpers.py` (file_helpers.py:16). -/
def EXCLUDED_DIRS : List String := [".fseventsd", ".Spotlight-V100", ".Trashes", ".DS_Store"]

/-- Components of a relative POSIX path (`pathlib.PurePath.parts`). -/
def pathParts (p : String) : List String := strSplitOn '/' p

/-- Whether a path has a component in `EXCLUDED_DIRS`
(`any(part in EXCLUDED_DIRS for part in file_path.parts)`). -/
def pathExcluded (p : String) : Bool := (pathParts p).any (fun part => part ∈ EXCLUDED_DIRS)

/-- The sequence of byte-strings fed to the SHA-256 hasher by
`compute_sha256` (file_helpers.py:128-139): iterate over the natural-sorted
files, skip excluded ones, and for each kept file hash its relative path
and then its content. -/
def checksumStream (files : List FSFile) : List String :=
  (natsortBy FSFile.path files).flatMap
    (fun f => if pathExcluded f.path then [] else [f.path, f.content])

/-- Model of a SHA-256 hex digest: the digest is identified with the exact
byte stream that was hashed (here, the concatenation of the hashed
byte-strings).  Two model digests are equal exactly when the hashed
streams are equal, which is the intended reading of digest equality under
the collision-freeness idealisation of SHA-256. -/
def sha256Model (stream : List String) : String := String.join stream

/-- Model of `compute_sha256(file_paths)` (file_helpers.py:109-145): `None`
for an empty file list, otherwise the digest of the hashed stream. -/
def compute_sha256 (files : List FSFile) : Option String :=
  if files.isEmpty then none else some (sha256Model (checksumStream files))

/-! ## `Master.create_master_structure` (master.py:340-388)

The method wipes the master root, creates the `tracks/` and `bookInfo/`
directories, touches `id.txt`, `count.txt`, `.metadata_never_index` and
`checksum.txt` (all empty), writes the ISBN into `id.txt` and the
processed-track count into `count.txt`, then writes
`str(self.checksum)` — computed over the files present at that moment —
into `checksum.txt`, and only afterwards copies each processed track file
into `tracks/`. -/

/-- Write `content` at `path` in a tree, replacing any existing file there
(`Path.write_text`; also used for `Path.touch` with empty content). -/
def fsWrite (files : List FSFile) (p c : String) : List FSFile :=
  (files.filter (fun f => f.path ≠ p)) ++ [⟨p, c⟩]

/-- Content of the file at `path`, if present. -/
def fsRead (files : List FSFile) (p : String) : Option String :=
  (files.find? (fun f => f.path = p)).map FSFile.content

/-- The files of the master root at the moment `self.checksum` is computed
(master.py:372): the structure files have been touched (master.py:361-368)
and `id.txt` and `count.txt` written (master.py:370-371), but no track has
been copied yet. -/
def masterPreChecksum (isbn : String) (count : ℕ) : List FSFile :=
  let fs : List FSFile := []
  let fs := fsWrite fs "bookInfo/id.txt" ""
  let fs := fsWrite fs "bookInfo/count.txt" ""
  let fs := fsWrite fs ".metadata_never_index" ""
  let fs := fsWrite fs "bookInfo/checksum.txt" ""
  let fs := fsWrite fs "bookInfo/id.txt" isbn
  let fs := fsWrite fs "bookInfo/count.txt" (toString count)
  fs

/-- Model of `Master.create_master_structure` (master.py:340-388) as the
final file tree of the master root, given the processed track files
(file name and content).  `str(self.checksum)` renders a `None` checksum
as the string `"None"`; the `Master.checksum` property (master.py:183-193)
is `compute_sha256` over all files currently under the root. -/
def create_master_structure (isbn : String) (processed : List FSFile) : List FSFile :=
  let pre := masterPreChecksum isbn processed.length
  let stored := (compute_sha256 pre).getD "None"
  let fs := fsWrite pre "bookInfo/checksum.txt" stored
  processed.foldl (fun acc t => fsWrite acc ("tracks/" ++ t.path) t.content) fs

/-- Modelled from the claim (C2): the hashed stream as the specification
describes it — every file under the root except `checksum.txt` itself and
known OS-junk names, in natural-sort order of relative path, each file's
relative path immediately before its content. -/
def specChecksumStream (files : List FSFile) : List String :=
  (natsortBy FSFile.path files).flatMap
    (fun f =>
      if pathExcluded f.path ∨ (pathParts f.path).getLastD "" = "checksum.txt" then []
      else [f.path, f.content])

/-- Concrete processed-track list used to exhibit the checksum-ordering bug. -/
def c1Processed : List FSFile := [⟨"001_00000ABCD.mp3", "AUDIO-BYTES-1"⟩]

/-- The master tree built from `c1Processed` with the end-to-end scenario ISBN. -/
def c1Final : List FSFile := create_master_structure "9780000000000" c1Processed

/-! ## `MasterValidator` (utils/master_validator.py)

The validator walks a candidate master root.  Directory existence is
modelled with an explicit directory list.  `validate` (lines 84-100) runs
`_system_files`, `_check_root_exists`, `_ensure_metadata_never_index`,
`_check_tracks_folder` and `_check_bookinfo_id`; the call to
`_check_checksum` is commented out in the source (line 96).  Only the
`fix_system_files=False` path is modelled, and the target is a drive
mountpoint (no back-compat `Master.isbn` enforcement). -/

/-- `SYSTEM_EXEMPT` (master_validator.py:19). -/
def SYSTEM_EXEMPT : List String := [".metadata_never_index"]

/-- A candidate master root as the validator sees it. -/
structure VRoot where
  root_exists : Bool
  dirs : List String
  files : List FSFile
deriving DecidableEq, Repr

/-- Last component of a relative path (the file or directory name). -/
def lastPart (p : String) : String := (pathParts p).getLastD ""

/-- A dot-prefixed name that is not exempt (master_validator.py:292,298). -/
def isDotArtifactName (n : String) : Bool := strStartsWith n "." ∧ n ∉ SYSTEM_EXEMPT

/-- Whether a path lies inside some non-exempt dot-directory (such
directories are pruned by the walk in `_scan_system_artifacts`, so their
contents are not collected individually). -/
def underDotDir (dirs : List String) (p : String) : Bool :=
  dirs.any (fun d => isDotArtifactName (lastPart d) ∧ strStartsWith p (d ++ "/"))

/-- Model of `_scan_system_artifacts` (master_validator.py:284-301):
non-exempt dot-named directories and dot-named files, not collected inside
pruned dot-directories. -/
def scan_system_artifacts (v : VRoot) : List String :=
  v.dirs.filter (fun d => isDotArtifactName (lastPart d) ∧ ¬ underDotDir v.dirs d)
    ++ (v.files.map FSFile.path).filter
        (fun p => isDotArtifactName (lastPart p) ∧ ¬ underDotDir v.dirs p)

/-- Audio extensions recognised by `_check_tracks_folder` (master_validator.py:148). -/
def audioExts : List String := [".mp3", ".wav", ".wv", ".m4a", ".flac", ".aac"]

/-- `pathlib.PurePath.suffix` (lowercased by the caller): the final
extension of a file name, empty when the name has no dot. -/
def suffixOf (name : String) : String :=
  match strSplitOn '.' name with
  | [] => ""
  | [_] => ""
  | parts => "." ++ parts.getLastD ""

/-- The audio files the validator counts in `tracks/`
(master_validator.py:149-155): direct children of `tracks/` whose suffix is
a recognised audio extension and whose name is not dot-prefixed. -/
def trackAudioFiles (v : VRoot) : List FSFile :=
  v.files.filter (fun f =>
    match pathParts f.path with
    | ["tracks", name] =>
        strLower (suffixOf name) ∈ audioExts ∧ ¬ strStartsWith name "."
    | _ => false)

/-- Model of `_system_files` with `fix_system_files=False`
(master_validator.py:104-125), returning (errors, warnings). -/
def check_system_files (v : VRoot) : List String × List String :=
  if (scan_system_artifacts v).isEmpty then ([], ["No system paths specified"])
  else (["System files present on drive"], [])

/-- Model of `_check_root_exists` (master_validator.py:128-130). -/
def check_root_exists (v : VRoot) : List String :=
  if v.root_exists then [] else ["Root path does not exist"]

/-- Model of `_ensure_metadata_never_index` (master_validator.py:132-137),
returning (errors, warnings). -/
def check_metadata_never_index (v : VRoot) : List String × List String :=
  if ".metadata_never_index" ∈ v.dirs then
    (["metadata_never_index exists but is not a file"], [])
  else if fsRead v.files ".metadata_never_index" = none then
    ([], ["Missing .metadata_never_index at root."])
  else ([], [])

/-- Model of `_check_tracks_folder` (master_validator.py:139-183): require
`tracks/`, count its recognised audio files, and compare with
`bookInfo/count.txt`. -/
def check_tracks_folder (v : VRoot) : List String :=
  if "tracks" ∉ v.dirs then ["Missing tracks folder"]
  else
    let audio := trackAudioFiles v
    let e1 : List String := if audio.isEmpty then ["No audio files found in tracks"] else []
    match fsRead v.files "bookInfo/count.txt" with
    | none => e1 ++ ["Missing count.txt"]
    | some s =>
      match parseDecimal s with
      | none => e1 ++ ["Invalid integer in count.txt"]
      | some expected =>
        if expected ≠ audio.length then e1 ++ ["Track count mismatch"] else e1

/-- Model of `_check_bookinfo_id` (master_validator.py:186-210) for a
drive target with an optional caller-supplied expected ISBN. -/
def check_bookinfo_id (v : VRoot) (expected_isbn : Option String) : List String :=
  if "bookInfo" ∉ v.dirs then ["Missing bookInfo directory"]
  else
    match fsRead v.files "bookInfo/id.txt" with
    | none => ["Missing id.txt"]
    | some s =>
      match expected_isbn with
      | some e => if strTrim s ≠ e then ["ISBN mismatch"] else []
      | none => []

/-- Result of a validation run (master_validator.py:24-42). -/
structure ValidationResult where
  ok : Bool
  errors : List String
  warnings : List String
deriving DecidableEq, Repr

/-- Model of `MasterValidator.validate` (master_validator.py:84-100) with
`fix_system_files=False`: the five enabled checks run unconditionally and
their errors are aggregated; the `_check_checksum` call is commented out
in the source (master_validator.py:96) and therefore contributes nothing. -/
def MasterValidator.validate (v : VRoot) (expected_isbn : Option String) : ValidationResult :=
  let sys := check_system_files v
  let rootErrs := check_root_exists v
  let meta := check_metadata_never_index v
  let trackErrs := check_tracks_folder v
  let idErrs := check_bookinfo_id v expected_isbn
  let errors := sys.1 ++ rootErrs ++ meta.1 ++ trackErrs ++ idErrs
  { ok := errors.isEmpty, errors := errors, warnings := sys.2 ++ meta.2 }

/-- Model of `_check_checksum` (master_validator.py:212-230) as it would
behave if invoked: compare the stored digest token with a recomputation
over the root; on mismatch report an error.  (In the source this method
exists but is never called by `validate`.) -/
def check_checksum (v : VRoot) : List String :=
  match fsRead v.files "bookInfo/checksum.txt" with
  | none => []
  | some stored =>
    if stored ≠ (compute_sha256 v.files).getD "" then
      ["Checksums mismatch"]
    else []

/-- A structurally valid master root whose stored checksum matches nothing:
`checksum.txt` holds `"notahash"`, which is not the digest of any stream
(in particular not of a recomputation over this root). -/
def c3Root : VRoot :=
  { root_exists := true
    dirs := ["tracks", "bookInfo"]
    files := [⟨".metadata_never_index", ""⟩,
              ⟨"bookInfo/id.txt", "9780000000000"⟩,
              ⟨"bookInfo/count.txt", "1"⟩,
              ⟨"bookInfo/checksum.txt", "notahash"⟩,
              ⟨"tracks/001_00000ABCD.mp3", "AUDIO-BYTES-1"⟩] }

/-! ## `Track` (models/track.py)

The fields a `Track` carries after `__init__` (track.py:22-70), as far as
the claims consult them.  `None` is modelled by `Option`/the empty string;
`silences` is the (possibly empty) list of detected silence start offsets;
`frame_errors` is `None` unless the frame-error probe actually ran. -/

structure Track where
  file_path : String
  index : ℕ
  isbn : String
  sku : String
  title : String
  author : String
  tests : List String
  target_lufs : ℚ
  duration : Option ℚ
  sample_rate : Option ℤ
  bit_rate : Option ℤ
  channels : Option ℤ
  loudness : Option ℚ
  silences : List ℚ
  frame_errors : Option ℤ
deriving DecidableEq, Repr

/-- Model of `analyze_track`'s `frame_errors` slot combined with
`Track.__init__`: `analyze_track` initialises `results["frame_errors"]` to
`None` (audio_helper.py:17) and fills it only when the `frame_errors` test
was requested on an MP3 codec (audio_helper.py:54-59); `Track.__init__`
reads it with `.get("frame_errors", 0)` (track.py:59), whose default never
fires because the key is always present. -/
def analyze_frame_errors (tests : List String) (codec_is_mp3 : Bool) (measured : ℤ) :
    Option ℤ :=
  if ¬ tests.isEmpty ∧ "frame_errors" ∈ tests.map (fun t => strTrim (strLower t)) ∧ codec_is_mp3
  then some measured
  else none

/-- Model of `Track.loudness_is_close_to_target` (track.py:94-106): `True`
when loudness was never measured, otherwise within `abs(target) * 0.05` of
the target LUFS. -/
def Track.loudness_is_close_to_target (t : Track) : Bool :=
  match t.loudness with
  | none => true
  | some l => decide (|l - t.target_lufs| ≤ |t.target_lufs| * (5 / 100))

/-- Model of `Track.encoding_is_valid` (track.py:148-160): positive integer
sample rate and bit rate, exactly one channel, and — only when a loudness
test was requested — a measured loudness strictly between -40 and 0. -/
def Track.encoding_is_valid (t : Track) : Bool :=
  (match t.sample_rate with | some v => decide (0 < v) | none => false)
  && (match t.bit_rate with | some v => decide (0 < v) | none => false)
  && (match t.channels with | some v => decide (v = 1) | none => false)
  && (if ¬ t.tests.isEmpty ∧ "loudness" ∈ t.tests.map strLower then
        match t.loudness with
        | some l => decide (-40 < l ∧ l < 0)
        | none => false
      else true)

/-- Model of `Track.status` (track.py:109-131): collect issues for
detected silences, `frame_errors > 0`, invalid encoding and off-target
loudness; valid iff no issue.  When `frame_errors` is `None` the
comparison `self.frame_errors > 0` raises `TypeError`. -/
def Track.status (t : Track) : Except PyErr Bool :=
  match t.frame_errors with
  | none => .error .typeError
  | some fe =>
    .ok (t.silences.isEmpty && decide (fe ≤ 0)
      && t.encoding_is_valid && t.loudness_is_close_to_target)

/-- Model of `Track.is_valid` (track.py:133-136): first component of
`status`. -/
def Track.is_valid (t : Track) : Except PyErr Bool := t.status

/-- Model of `Track.encoded_size` (track.py:138-145): `0` for an unset or
zero duration, otherwise `(bit_rate * duration) // 8` (a `TypeError` if
`bit_rate` is `None`). -/
def Track.encoded_size (t : Track) : Except PyErr ℚ :=
  match t.duration with
  | none => .ok 0
  | some d =>
    if d = 0 then .ok 0
    else
      match t.bit_rate with
      | none => .error .typeError
      | some b => .ok ((⌊(b : ℚ) * d / 8⌋ : ℤ) : ℚ)

/-- The `Track` class defines no attribute or property named
`target_size` (track.py defines `encoded_size` instead), so Python
attribute lookup on it raises `AttributeError`. -/
def Track.target_size (_ : Track) : Except PyErr ℚ := .error .attributeError

/-! ## `Tracks` aggregates (models/tracks.py) -/

/-- Model of `Tracks.total_target_size` (tracks.py:89-92):
`sum(file.target_size for file in self.files if file.target_size)` — the
generator evaluates `file.target_size` per member, left to right, skipping
falsy (zero) values; the first raised error propagates. -/
def Tracks.total_target_size : List Track → Except PyErr ℚ
  | [] => .ok 0
  | t :: rest => do
    let v ← t.target_size
    let s ← Tracks.total_target_size rest
    if v ≠ 0 then pure (v + s) else pure s

/-- Model of `Tracks.all_valid` (tracks.py:94-97):
`all(track.is_valid for track in self.files)`, short-circuiting at the
first invalid member; a raised error propagates. -/
def Tracks.all_valid : List Track → Except PyErr Bool
  | [] => .ok true
  | t :: rest => do
    let v ← t.is_valid
    if v then Tracks.all_valid rest else pure false

/-- Common body of the three aggregate accessors `Tracks.isbn`,
`Tracks.title`, `Tracks.author` (tracks.py:109-137): the set of truthy
values over the members; one distinct value is returned, several raise
`ValueError`, none yields `None`. -/
def aggregate_field (vals : List String) : Except PyErr (Option String) :=
  match (vals.filter (fun v => v ≠ "")).dedup with
  | [] => .ok none
  | [v] => .ok (some v)
  | _ => .error .valueError

/-- Model of `Tracks.isbn` (tracks.py:109-117). -/
def Tracks.isbn (ts : List Track) : Except PyErr (Option String) :=
  aggregate_field (ts.map Track.isbn)

/-- Model of `Tracks.title` (tracks.py:119-127). -/
def Tracks.title (ts : List Track) : Except PyErr (Option String) :=
  aggregate_field (ts.map Track.title)

/-- Model of `Tracks.author` (tracks.py:129-137). -/
def Tracks.author (ts : List Track) : Except PyErr (Option String) :=
  aggregate_field (ts.map Track.author)

/-! ## Capacity planning (masterdraft.py:132-170, master.py:390-417) -/

/-- Model of `MasterDraft.calculate_encoding_for_drive_limit`
(masterdraft.py:132-170), parametric in the projected total size, the
configured drive limit and the configured bit rate: sizes at most the
limit keep the configured rate; larger sizes scale the rate by
`max_drive_size / current_size_bytes` (truncated by `int()`), clamped to
`[32000, current_bit_rate]`. -/
def calculate_encoding_for_drive_limit (total_target_size : ℚ) (max_drive_size : ℤ)
    (bit_rate : ℤ) : ℤ :=
  if total_target_size ≤ (max_drive_size : ℚ) then bit_rate
  else
    let required := ⌊(bit_rate : ℚ) * ((max_drive_size : ℚ) / total_target_size)⌋
    max 32000 (min required bit_rate)

/-- Model of `Master.calculate_encoding_for_1gb` (master.py:390-417),
identical except that its lower clamp is the literal `32` (`MIN_BITRATE =
32`, master.py:407); `MAX_DRIVE_SIZE` is a parameter because
`constants.py` is not part of the sources. -/
def calculate_encoding_for_1gb (total_size : ℚ) (max_drive_size : ℤ)
    (bit_rate : ℤ) : ℤ :=
  if total_size ≤ (max_drive_size : ℤ) then bit_rate
  else
    let required := ⌊(bit_rate : ℚ) * ((max_drive_size : ℚ) / total_size)⌋
    max 32 (min required bit_rate)

/-- Modelled from the claim (C5): the bitrate selector as the
specification describes it — a 5% safety margin is reserved, sizes within
the usable 95% budget keep the configured rate, larger sizes scale the
rate by `usable_budget / projected_size` (truncated), floored at 32000 and
never above the configured rate. -/
def specSelectBitRate (total_size : ℚ) (max_drive_size : ℤ) (bit_rate : ℤ) : ℤ :=
  let usable : ℚ := (95 / 100 : ℚ) * (max_drive_size : ℚ)
  if total_size ≤ usable then bit_rate
  else max 32000 (min ⌊(bit_rate : ℚ) * (usable / total_size)⌋ bit_rate)

/-! ## Disk image sizing (diskimage.py:43-54) -/

/-- Model of the image-size computation of `DiskImage.create_disk_image`
(diskimage.py:47-49): `buffer_kb = max(source_size_kb // 20, 5 * 1024)`,
`image_size_mb = max((source_size_kb + buffer_kb + 1023) // 1024, 10)`. -/
def image_size_mb (source_size_kb : ℕ) : ℕ :=
  let buffer_kb := max (source_size_kb / 20) (5 * 1024)
  max ((source_size_kb + buffer_kb + 1023) / 1024) 10

/-- The byte size of the allocated raw image file (diskimage.py:52-54):
`sector_count = (image_size_mb * 1024 * 1024) // 512` sectors of 512
bytes. -/
def image_file_bytes (source_size_kb : ℕ) : ℕ :=
  ((image_size_mb source_size_kb * 1024 * 1024) / 512) * 512

/-- Modelled from the claim (C9): the image size in MB as the
specification describes it — `max(ceil((used_kb + max(used_kb * 0.05,
5MB)) / 1024), 10)` in exact arithmetic. -/
def specImageSizeMB (used_kb : ℕ) : ℤ :=
  max ⌈(((used_kb : ℚ) + max ((used_kb : ℚ) * (5 / 100)) ((5 : ℚ) * 1024)) / 1024)⌉ 10

/-! ## Track discovery and output names (tracks.py:33-66, track.py:44) -/

/-- Model of the discovery step of `Tracks._load_files` (tracks.py:45-46):
collect the file names matching each valid extension, then natural-sort
them. -/
def tracksLoadOrder (valid_extensions : List String) (names : List String) : List String :=
  natsortBy id (valid_extensions.flatMap (fun ext => names.filter (fun n => strEndsWith n ext)))

/-- Model of the index assignment of `Tracks._load_files` (tracks.py:50):
`enumerate(files, start=1)` pairs each discovered file, in natural-sort
order, with its 1-based index. -/
def tracksLoadFiles (valid_extensions : List String) (names : List String) :
    List (ℕ × String) :=
  (tracksLoadOrder valid_extensions names).enum.map (fun p => (p.1 + 1, p.2))

/-- `str.zfill(width)`: left-pad with zeros. -/
def zfill (w : ℕ) (s : String) : String :=
  if w ≤ s.length then s else String.mk (List.replicate (w - s.length) '0') ++ s

/-- Python `s[-n:]`: the last `n` characters (all of `s` when shorter). -/
def pyLastN (n : ℕ) (s : String) : String := s.drop (s.length - n)

/-- Model of `slugify` from python-slugify restricted to ASCII input:
lowercase, non-alphanumeric runs become single hyphens, leading/trailing
separators stripped. -/
def slugify (s : String) : String :=
  let cleaned := s.toList.map (fun c =>
    if c.toLower.isAlphanum then c.toLower else ' ')
  String.intercalate "-" (((charsSplitOn ' ' cleaned).map String.mk).filter (fun w => w ≠ ""))

/-- Model of `Track.output_file` (track.py:44):
`f"{str(index).zfill(3)}_{slugify(isbn[-5:])}{slugify(sku[-4:]).upper()}"[:13] + ".mp3"`. -/
def Track.output_file (index : ℕ) (isbn sku : String) : String :=
  (zfill 3 (toString index) ++ "_" ++ slugify (pyLastN 5 isbn)
    ++ strUpper (slugify (pyLastN 4 sku))).take 13 ++ ".mp3"

/-! ## Concrete instances used by the claims -/

/-- A fully probed, frame-error-free, silence-free processed MP3 track
with the end-to-end scenario ISBN: every validity-relevant check passes. -/
def c4Track : Track :=
  { file_path := "001_00000ABCD.mp3", index := 1, isbn := "9780000000000",
    sku := "BK-00000-ABCD", title := "Title", author := "Author",
    tests := ["frame_errors"], target_lufs := -19, duration := some 100,
    sample_rate := some 44100, bit_rate := some 96000, channels := some 1,
    loudness := none, silences := [], frame_errors := some 0 }

/-- The same track with an empty ISBN (the owning master supplied none). -/
def c6Track : Track := { c4Track with isbn := "" }

/-- A second member whose metadata fields are unset. -/
def c7TrackB : Track :=
  { c4Track with
    file_path := "002_00000ABCD.mp3"
    index := 2
    isbn := ""
    title := ""
    author := "" }

/-- A track loaded with only the `metadata` test selected (as
`encode_tracks` does for processed tracks, master.py:337): the analyzer
leaves `frame_errors` at its `None` default. -/
def c10Track : Track :=
  { c4Track with
    tests := ["metadata"]
    frame_errors := analyze_frame_errors ["metadata"] true 0 }

/-! ## Helper lemmas -/

theorem flatMap_ite_eq_filter_flatMap (p : α → Bool) (g : α → List β) (l : List α) :
    (l.flatMap (fun a => if p a then [] else g a))
      = (l.filter (fun a => !(p a))).flatMap g := by
  induction l with
  | nil => rfl
  | cons a l ih => by_cases h : p a <;> simp [h, ih]

theorem aggregate_field_err_iff (vals : List String) :
    aggregate_field vals = .error .valueError
      ↔ 1 < ((vals.filter (fun v => v ≠ "")).dedup).length := by
  unfold aggregate_field
  rcases (vals.filter (fun v => v ≠ "")).dedup with _ | ⟨v, _ | ⟨w, l⟩⟩ <;> simp

theorem aggregate_field_nil (vals : List String)
    (h : (vals.filter (fun v => v ≠ "")).dedup = []) :
    aggregate_field vals = .ok none := by
  unfold aggregate_field
  rw [h]

theorem aggregate_field_single (vals : List String) (v : String)
    (h : (vals.filter (fun v => v ≠ "")).dedup = [v]) :
    aggregate_field vals = .ok (some v) := by
  unfold aggregate_field
  rw [h]

/-! ## Claims -/

/-- C1: the claim states that for every successful
`Master.create_master_structure()`, `bookInfo/checksum.txt` is written only
after all processed track files have been copied into `tracks/`, so the
stored digest equals the structure checksum of the final on-disk master
structure.  In the source the checksum is written (master.py:372) before
the copy loop (master.py:381-383): for a master with one processed track,
the stored digest is the digest of the pre-copy tree (no `tracks/` files,
empty `checksum.txt`) and differs from a digest recomputed over the final
tree, which contains the copied track. -/
theorem C1_checksum_written_before_tracks_copied :
    fsRead c1Final "bookInfo/checksum.txt"
      = some (sha256Model (checksumStream (masterPreChecksum "9780000000000" 1)))
    ∧ fsRead c1Final "tracks/001_00000ABCD.mp3" = some "AUDIO-BYTES-1"
    ∧ fsRead c1Final "bookInfo/checksum.txt"
      ≠ some (sha256Model (checksumStream c1Final)) := by
  refine ⟨by rfl, by rfl, by decide⟩

set_option maxRecDepth 4000 in
/-- C2 (counterexample): the claim states that the structure checksum is
computed over every file under the root *except `checksum.txt` itself* and
known OS-junk names.  On a concrete master root containing
`bookInfo/checksum.txt`, the digest computed by `compute_sha256` differs
from the digest of the stream the claim describes, because the source
excludes only `EXCLUDED_DIRS` components and hashes `checksum.txt` like
any other file. -/
theorem C2_checksum_includes_checksum_txt :
    compute_sha256 c3Root.files
      ≠ some (sha256Model (specChecksumStream c3Root.files)) := by decide

/-- C2 (amended): the structure checksum is the SHA-256 over the files
under the root *including `checksum.txt` itself*, excluding only files
with a path component among the OS-junk directory names, taken in
natural-sort order of relative path, with each file's relative path hashed
immediately before that file's content. -/
theorem C2_checksum_stream_characterisation (files : List FSFile) :
    checksumStream files
      = ((natsortBy FSFile.path files).filter (fun f => !(pathExcluded f.path))).flatMap
          (fun f => [f.path, f.content])
    ∧ ((natsortBy FSFile.path files).filter (fun f => !(pathExcluded f.path))).Perm
        (files.filter (fun f => !(pathExcluded f.path)))
    ∧ ((natsortBy FSFile.path files).filter (fun f => !(pathExcluded f.path))).Sorted
        (fun a b => NatLe a.path b.path)
    ∧ ∀ f ∈ files, ¬ pathExcluded f.path →
        f.path ∈ checksumStream files ∧ f.content ∈ checksumStream files := by
  refine ⟨flatMap_ite_eq_filter_flatMap _ _ _, (natsortBy_perm _ _).filter _,
    List.Pairwise.sublist (List.filter_sublist _) (natsortBy_sorted FSFile.path files),
    ?_⟩
  intro f hf hexc
  have hmem : f ∈ (natsortBy FSFile.path files).filter (fun f => !(pathExcluded f.path)) := by
    rw [List.mem_filter]
    exact ⟨((natsortBy_perm FSFile.path files).mem_iff).2 hf, by simpa using hexc⟩
  rw [checksumStream, flatMap_ite_eq_filter_flatMap]
  exact ⟨List.mem_flatMap.2 ⟨f, hmem, by simp⟩, List.mem_flatMap.2 ⟨f, hmem, by simp⟩⟩

/-- C2 (witness): the amended characterisation applied to the concrete
root `c3Root.files`: its `bookInfo/checksum.txt` entry is not excluded,
so both its path and its content appear in the hashed stream. -/
theorem C2_checksum_stream_characterisation_witness :
    "bookInfo/checksum.txt" ∈ checksumStream c3Root.files
    ∧ "notahash" ∈ checksumStream c3Root.files :=
  (C2_checksum_stream_characterisation c3Root.files).2.2.2
    ⟨"bookInfo/checksum.txt", "notahash"⟩ (by decide) (by decide)

/-- C3: the claim states that `MasterValidator.validate` runs all checks
including the checksum check, so a stored/recomputed checksum mismatch
yields an error and `ok = False`.  In the source the call to
`_check_checksum` is commented out (master_validator.py:96): on a
structurally valid root whose stored checksum (`"notahash"`) is not the
digest of any recomputation, `validate` still returns `ok = true` with no
errors, even though the (never invoked) `_check_checksum` would have
reported the mismatch. -/
theorem C3_validate_skips_checksum_check :
    (MasterValidator.validate c3Root none).ok = true
    ∧ (MasterValidator.validate c3Root none).errors = []
    ∧ fsRead c3Root.files "bookInfo/checksum.txt" = some "notahash"
    ∧ some "notahash" ≠ compute_sha256 c3Root.files
    ∧ check_checksum c3Root = ["Checksums mismatch"] := by
  refine ⟨by rfl, by rfl, by rfl, by decide, by decide⟩

/-- C4: the claim states that `Tracks.total_target_size` returns the sum
of `bit_rate * duration / 8` over the member tracks.  The source sums
`file.target_size` (tracks.py:92) but the `Track` class defines no
attribute `target_size` (the projected size lives in
`Track.encoded_size`, track.py:138-145), so on any non-empty collection
the accessor raises `AttributeError` instead of returning the projected
total — here a one-track collection whose projected size would be
`96000 * 100 / 8 = 1200000` bytes. -/
theorem C4_total_target_size_raises :
    Tracks.total_target_size [c4Track] = .error .attributeError
    ∧ c4Track.encoded_size = .ok 1200000
    ∧ c4Track.bit_rate = some 96000 ∧ c4Track.duration = some 100 := by
  refine ⟨by rfl, ?_, by rfl, by rfl⟩
  show Track.encoded_size c4Track = .ok 1200000
  rw [Track.encoded_size]
  norm_num [c4Track]

/-- C5 (counterexample): the claim states that a projected size exceeding
the usable 95% budget causes the configured bit rate to be scaled down.
At a projected size of 980 MB on a 1 GB drive with a configured rate of
192000 bps, the spec-described selector returns the scaled rate 186122,
but the source compares against the *full* capacity
(masterdraft.py:144, master.py:398) and returns 192000 unchanged. -/
theorem C5_no_95_percent_budget :
    calculate_encoding_for_drive_limit 980000000 1000000000 192000 = 192000
    ∧ specSelectBitRate 980000000 1000000000 192000 = 186122 := by
  constructor
  · rw [calculate_encoding_for_drive_limit, if_pos (by norm_num)]
  · rw [specSelectBitRate]
    norm_num

/-- C5 (amended): the bitrate selector compares the projected size against
the full drive capacity, not a 95% budget: a size at most the capacity
keeps the configured rate unchanged; a larger size scales the configured
rate by `capacity / size` (truncated), and the result is then at least
32000 and at most the configured rate (for configured rates of at least
32000). -/
theorem C5_selector_full_capacity (total cap rate : ℤ) :
    (total ≤ cap → calculate_encoding_for_drive_limit total cap rate = rate)
    ∧ (cap < total → 32000 ≤ rate →
        calculate_encoding_for_drive_limit total cap rate
            = max 32000 (min ⌊(rate : ℚ) * ((cap : ℚ) / (total : ℚ))⌋ rate)
        ∧ 32000 ≤ calculate_encoding_for_drive_limit total cap rate
        ∧ calculate_encoding_for_drive_limit total cap rate ≤ rate) := by
  constructor
  · intro h
    rw [calculate_encoding_for_drive_limit, if_pos (by exact_mod_cast h)]
  · intro h h32
    have hneg : ¬ ((total : ℚ) ≤ ((cap : ℤ) : ℚ)) := by exact_mod_cast not_le.2 h
    rw [calculate_encoding_for_drive_limit, if_neg hneg]
    exact ⟨rfl, le_max_left _ _, max_le h32 (min_le_right _ _)⟩

/-- C5 (witness): the amended statement at concrete inputs — 500 MB fits a
1 GB drive and keeps 192000; 2 GB exceeds it and the selected rate lies in
`[32000, 192000]`. -/
theorem C5_selector_full_capacity_witness :
    calculate_encoding_for_drive_limit 500000000 1000000000 192000 = 192000
    ∧ 32000 ≤ calculate_encoding_for_drive_limit 2000000000 1000000000 192000
    ∧ calculate_encoding_for_drive_limit 2000000000 1000000000 192000 ≤ 192000 :=
  ⟨(C5_selector_full_capacity 500000000 1000000000 192000).1 (by decide),
   ((C5_selector_full_capacity 2000000000 1000000000 192000).2 (by decide) (by decide)).2⟩

/-- C6 (counterexample): the claim states that `Track.is_valid` requires a
non-empty ISBN.  `Track.status` (track.py:109-131) never consults the
ISBN: a track with an empty ISBN and otherwise clean probes is reported
valid. -/
theorem C6_is_valid_ignores_isbn :
    c6Track.is_valid = .ok true ∧ c6Track.isbn = "" := ⟨by rfl, by rfl⟩

/-- C6 (amended): for every track whose frame-error count is an integer,
`is_valid` is true iff no silence events were detected, the frame-error
count is not positive (so the `-1` probe-failed sentinel also passes), the
encoding parameters are valid (`sample_rate > 0`, `bit_rate > 0`,
`channel_count = 1`, and, only when the loudness test was requested, a
measured loudness in `(-40, 0)`), and any measured loudness is within 5%
of the target; the ISBN is not consulted. -/
theorem C6_is_valid_characterisation (t : Track) (fe : ℤ)
    (h : t.frame_errors = some fe) :
    t.is_valid = .ok true ↔
      (t.silences = [] ∧ fe ≤ 0 ∧ t.encoding_is_valid = true
        ∧ t.loudness_is_close_to_target = true) := by
  rw [Track.is_valid, Track.status, h]
  simp [List.isEmpty_iff, and_assoc]

/-- C6 (witness): the characterisation applied to the concrete track
`c6Track`, whose frame-error count is the integer 0. -/
theorem C6_is_valid_characterisation_witness :
    c6Track.frame_errors = some 0
    ∧ (c6Track.is_valid = .ok true ↔
        (c6Track.silences = [] ∧ (0 : ℤ) ≤ 0 ∧ c6Track.encoding_is_valid = true
          ∧ c6Track.loudness_is_close_to_target = true)) :=
  ⟨by rfl, C6_is_valid_characterisation c6Track 0 (by rfl)⟩

/-- C7: for every track collection, each of the aggregate accessors
`isbn`, `title` and `author` raises the inconsistency error iff more than
one distinct non-empty value occurs among the member tracks; with no
non-empty value it returns `None` without error; and with exactly one
distinct non-empty value (even when only one track carries it) it returns
that value without error. -/
theorem C7_aggregate_consistency (ts : List Track) :
    (Tracks.isbn ts = .error .valueError
        ↔ 1 < (((ts.map Track.isbn).filter (fun v => v ≠ "")).dedup).length)
    ∧ (((ts.map Track.isbn).filter (fun v => v ≠ "")).dedup = []
        → Tracks.isbn ts = .ok none)
    ∧ (∀ v, ((ts.map Track.isbn).filter (fun v => v ≠ "")).dedup = [v]
        → Tracks.isbn ts = .ok (some v))
    ∧ (Tracks.title ts = .error .valueError
        ↔ 1 < (((ts.map Track.title).filter (fun v => v ≠ "")).dedup).length)
    ∧ (((ts.map Track.title).filter (fun v => v ≠ "")).dedup = []
        → Tracks.title ts = .ok none)
    ∧ (∀ v, ((ts.map Track.title).filter (fun v => v ≠ "")).dedup = [v]
        → Tracks.title ts = .ok (some v))
    ∧ (Tracks.author ts = .error .valueError
        ↔ 1 < (((ts.map Track.author).filter (fun v => v ≠ "")).dedup).length)
    ∧ (((ts.map Track.author).filter (fun v => v ≠ "")).dedup = []
        → Tracks.author ts = .ok none)
    ∧ (∀ v, ((ts.map Track.author).filter (fun v => v ≠ "")).dedup = [v]
        → Tracks.author ts = .ok (some v)) :=
  ⟨aggregate_field_err_iff _, aggregate_field_nil _,
   fun v h => aggregate_field_single _ v h,
   aggregate_field_err_iff _, aggregate_field_nil _,
   fun v h => aggregate_field_single _ v h,
   aggregate_field_err_iff _, aggregate_field_nil _,
   fun v h => aggregate_field_single _ v h⟩

/-- C7 (witness): a two-track collection where only the first member has
an ISBN set returns that single value without error. -/
theorem C7_aggregate_consistency_witness :
    Tracks.isbn [c4Track, c7TrackB] = .ok (some "9780000000000") :=
  (C7_aggregate_consistency [c4Track, c7TrackB]).2.2.1 "9780000000000" (by decide)

set_option maxRecDepth 8000 in
/-- C8: track indices are assigned in natural-sort order of filename: for
every directory listing, the discovered files are natural-sorted and
paired with indices 1, 2, …; on the listing `["2.mp3", "10.mp3", "1.mp3"]`
this yields `1.mp3 → 001_`, `2.mp3 → 002_`, `10.mp3 → 003_` in the derived
output filenames (numeric ordering of digit runs, not lexicographic). -/
theorem C8_natural_sort_indices :
    (∀ (exts names : List String),
        ((tracksLoadFiles exts names).map Prod.snd).Sorted NatLe)
    ∧ (∀ (exts names : List String),
        (tracksLoadFiles exts names).map Prod.fst
          = List.range' 1 (tracksLoadOrder exts names).length)
    ∧ tracksLoadFiles [".mp3", ".wav"] ["2.mp3", "10.mp3", "1.mp3"]
        = [(1, "1.mp3"), (2, "2.mp3"), (3, "10.mp3")]
    ∧ Track.output_file 1 "9780000000000" "BK-00000-ABCD" = "001_00000ABCD.mp3"
    ∧ Track.output_file 2 "9780000000000" "BK-00000-ABCD" = "002_00000ABCD.mp3"
    ∧ Track.output_file 3 "9780000000000" "BK-00000-ABCD" = "003_00000ABCD.mp3" := by
  refine ⟨?_, ?_, by decide, by decide, by decide, by decide⟩
  · intro exts names
    have h : (tracksLoadFiles exts names).map Prod.snd = tracksLoadOrder exts names := by
      rw [tracksLoadFiles, List.map_map]
      exact List.enum_map_snd _
    rw [h]
    exact natsortBy_sorted id _
  · intro exts names
    rw [tracksLoadFiles, List.map_map]
    have h : (Prod.fst ∘ fun p : ℕ × String => (p.1 + 1, p.2))
        = (fun n => n + 1) ∘ Prod.fst := rfl
    rw [h, ← List.map_map, List.enum_map_fst, List.range'_eq_map_range]
    exact (List.map_congr_left (fun a _ => Nat.add_comm a 1)).symm ▸ rfl

/-- C9 (counterexample): the claim's formula
`max(ceil((used_kb + max(used_kb * 0.05, 5MB)) / 1024), 10)` uses exact
5% arithmetic; the source floors the buffer with integer division
(`source_size_kb // 20`, diskimage.py:48).  At `used_kb = 106301` the
exact formula gives 110 MB while the source computes 109 MB. -/
theorem C9_exact_formula_differs :
    specImageSizeMB 106301 = 110 ∧ image_size_mb 106301 = 109 := by
  constructor
  · have h : (⌈(((106301 : ℕ) : ℚ) + max (((106301 : ℕ) : ℚ) * (5 / 100)) ((5 : ℚ) * 1024))
        / 1024⌉ : ℤ) = 110 := by
      rw [Int.ceil_eq_iff]
      norm_num
    rw [specImageSizeMB, h]
    decide
  · decide

/-- C9 (amended): the image size is
`max((used_kb + max(used_kb // 20, 5 * 1024) + 1023) // 1024, 10)` MB
(integer-floored 5% buffer, ceiling division by 1024): it is always at
least 10 MB, the allocated file holds exactly that many mebibytes, its
capacity covers the content plus buffer, and a 2 MB source still yields a
10 MB image. -/
theorem C9_image_size_floor (u : ℕ) :
    image_size_mb u = max ((u + max (u / 20) (5 * 1024) + 1023) / 1024) 10
    ∧ 10 ≤ image_size_mb u
    ∧ image_file_bytes u = image_size_mb u * 1048576
    ∧ u + max (u / 20) (5 * 1024) ≤ 1024 * image_size_mb u
    ∧ image_size_mb 2048 = 10 := by
  refine ⟨rfl, le_max_right _ _, ?_, ?_, by decide⟩
  · show ((image_size_mb u * 1024 * 1024) / 512) * 512 = image_size_mb u * 1048576
    have h : image_size_mb u * 1024 * 1024 = (image_size_mb u * 2048) * 512 := by ring
    rw [h, Nat.mul_div_cancel _ (by norm_num : 0 < 512)]
    ring
  · show u + max (u / 20) (5 * 1024)
        ≤ 1024 * max ((u + max (u / 20) (5 * 1024) + 1023) / 1024) 10
    have h1 := Nat.div_add_mod (u + max (u / 20) (5 * 1024) + 1023) 1024
    have h2 : (u + max (u / 20) (5 * 1024) + 1023) % 1024 < 1024 :=
      Nat.mod_lt _ (by norm_num)
    have h3 : u + max (u / 20) (5 * 1024)
        ≤ 1024 * ((u + max (u / 20) (5 * 1024) + 1023) / 1024) := by omega
    calc u + max (u / 20) (5 * 1024)
        ≤ 1024 * ((u + max (u / 20) (5 * 1024) + 1023) / 1024) := h3
      _ ≤ 1024 * max ((u + max (u / 20) (5 * 1024) + 1023) / 1024) 10 :=
          Nat.mul_le_mul_left _ (le_max_left _ _)

/-- C10: for every track built with a tests selection that does not
request the frame-error check, the analyzer's `frame_errors` slot stays at
its always-present `None` default, so `is_valid` (and `Tracks.all_valid`
over such a collection) raises `TypeError` from `frame_errors > 0` instead
of returning a boolean — `is_valid` is not total over constructible
tracks. -/
theorem C10_is_valid_not_total (tests : List String) (codec_is_mp3 : Bool)
    (measured : ℤ) (t : Track)
    (hfe : t.frame_errors = analyze_frame_errors tests codec_is_mp3 measured)
    (hnot : "frame_errors" ∉ tests.map (fun s => strTrim (strLower s))) :
    t.frame_errors = none ∧ t.is_valid = .error .typeError
    ∧ Tracks.all_valid [t] = .error .typeError := by
  have hn : t.frame_errors = none := by
    rw [hfe, analyze_frame_errors, if_neg]
    simp [hnot]
  have hv : t.is_valid = .error .typeError := by
    rw [Track.is_valid, Track.status, hn]
  refine ⟨hn, hv, ?_⟩
  simp only [Tracks.all_valid, hv]
  rfl

/-- C10 (witness): a track loaded with tests `["metadata"]` (as
`encode_tracks` loads processed tracks) carries `frame_errors = None` and
its validity check raises. -/
theorem C10_is_valid_not_total_witness :
    ("frame_errors" ∉ (["metadata"] : List String).map (fun s => strTrim (strLower s)))
    ∧ (c10Track.frame_errors = none ∧ c10Track.is_valid = .error .typeError
        ∧ Tracks.all_valid [c10Track] = .error .typeError) :=
  ⟨by decide, C10_is_valid_not_total ["metadata"] true 0 c10Track (by rfl) (by decide)⟩
